import Mathlib

/-!
Shallow embedding of `asyncgit/src/sync/sign.rs` (commit signing for gitui):
the configuration-resolution logic `SignBuilder::from_gitconfig` and the
subprocess signing protocol `GPGSign::sign`, together with both error
taxonomies, and theorems about them.

Rust strings and byte buffers are modelled as lists of byte values
(`List Nat`, each entry < 256); `std::str::from_utf8` is zero-copy
validation, so a decoded string has exactly the bytes of its input and is
modelled by UTF-8 validation returning the same byte list.
-/

deriving instance DecidableEq for Except

namespace Sign

/-- A Rust string or byte buffer, as its byte values. -/
abbrev ByteStr := List Nat

/-- Byte values of an ASCII string literal (all literals in the source are ASCII). -/
def bytes (s : String) : ByteStr := s.toList.map Char.toNat

/-- Decimal digit bytes of a natural number, fuel-driven. -/
def natDigitsAux : Nat → Nat → List Nat → List Nat
  | 0, _, acc => acc
  | fuel + 1, n, acc =>
    if n < 10 then (48 + n) :: acc
    else natDigitsAux fuel (n / 10) ((48 + n % 10) :: acc)

/-- Decimal ASCII rendering of a natural number, as bytes. -/
def natBytes (n : Nat) : ByteStr := natDigitsAux (n + 1) n []

/-- Whether a byte is a UTF-8 continuation byte (0x80..=0xBF). -/
def isCont (b : Nat) : Bool := 128 ≤ b && b ≤ 191

/-- Valid (first byte, second byte) starts of a three-byte UTF-8 sequence. -/
def valid3First (b b1 : Nat) : Bool :=
  (b == 224 && 160 ≤ b1 && b1 ≤ 191) ||
  (225 ≤ b && b ≤ 236 && isCont b1) ||
  (b == 237 && 128 ≤ b1 && b1 ≤ 159) ||
  (238 ≤ b && b ≤ 239 && isCont b1)

/-- Valid (first byte, second byte) starts of a four-byte UTF-8 sequence. -/
def valid4First (b b1 : Nat) : Bool :=
  (b == 240 && 144 ≤ b1 && b1 ≤ 191) ||
  (241 ≤ b && b ≤ 243 && isCont b1) ||
  (b == 244 && 128 ≤ b1 && b1 ≤ 143)

/-- UTF-8 validation in the manner of Rust's `core::str::validations`:
returns `none` when the bytes are valid UTF-8, otherwise
`some (valid_up_to, error_len)` where `error_len = none` marks an
incomplete sequence at the end of the input. `i` is the byte index of the
current position. -/
def utf8Run : Nat → List Nat → Option (Nat × Option Nat)
  | _, [] => none
  | i, b :: rest =>
    if b < 128 then utf8Run (i + 1) rest
    else if 194 ≤ b && b ≤ 223 then
      match rest with
      | [] => some (i, none)
      | b1 :: rest1 =>
        if isCont b1 then utf8Run (i + 2) rest1 else some (i, some 1)
    else if 224 ≤ b && b ≤ 239 then
      match rest with
      | [] => some (i, none)
      | b1 :: rest1 =>
        if valid3First b b1 then
          match rest1 with
          | [] => some (i, none)
          | b2 :: rest2 =>
            if isCont b2 then utf8Run (i + 3) rest2 else some (i, some 2)
        else some (i, some 1)
    else if 240 ≤ b && b ≤ 244 then
      match rest with
      | [] => some (i, none)
      | b1 :: rest1 =>
        if valid4First b b1 then
          match rest1 with
          | [] => some (i, none)
          | b2 :: rest2 =>
            if isCont b2 then
              match rest2 with
              | [] => some (i, none)
              | b3 :: rest3 =>
                if isCont b3 then utf8Run (i + 4) rest3 else some (i, some 3)
            else some (i, some 2)
        else some (i, some 1)
    else some (i, some 1)

/-- Whether a byte list is valid UTF-8. -/
def validUtf8 (bs : ByteStr) : Bool := (utf8Run 0 bs).isNone

/-- Model of `std::str::from_utf8`: zero-copy validation, so success returns
the input bytes themselves; the error value is the `Display` text of the
`std::str::Utf8Error` (what `e.to_string()` yields in the source). -/
def fromUtf8 (bs : ByteStr) : Except ByteStr ByteStr :=
  match utf8Run 0 bs with
  | none => .ok bs
  | some (v, some n) =>
    .error (bytes "invalid utf-8 sequence of " ++ natBytes n ++
      bytes " bytes from index " ++ natBytes v)
  | some (v, none) =>
    .error (bytes "incomplete utf-8 byte sequence from index " ++ natBytes v)

/-- Whether `s` starts with `pat`. -/
def listStartsWith : List Nat → List Nat → Bool
  | [], _ => true
  | _ :: _, [] => false
  | p :: ps, c :: cs => (p == c) && listStartsWith ps cs

/-- Model of Rust's `str::contains` for an ASCII pattern: contiguous
byte-substring search. -/
def containsSub (pat : ByteStr) : ByteStr → Bool
  | [] => listStartsWith pat []
  | c :: cs => listStartsWith pat (c :: cs) || containsSub pat cs

/-- The GnuPG status marker `"\n[GNUPG:] SIG_CREATED "` checked on stderr. -/
def sigCreatedMarker : ByteStr := bytes "\n[GNUPG:] SIG_CREATED "

/-- Error type for `SignBuilder` (configuration resolution), as in the source. -/
inductive SignBuilderError where
  | InvalidFormat (s : ByteStr)
  | GPGSigningKey (s : ByteStr)
  | Signature (s : ByteStr)
  | MethodNotImplemented (s : ByteStr)
deriving DecidableEq

/-- The `thiserror`-derived `Display` of `SignBuilderError` (what
`err.to_string()` yields in the source). -/
def SignBuilderError.toString : SignBuilderError → ByteStr
  | .InvalidFormat s =>
    bytes "Failed to derive a commit signing method from git configuration 'gpg.format': " ++ s
  | .GPGSigningKey s =>
    bytes "Failed to retrieve 'user.signingkey' from the git configuration: " ++ s
  | .Signature s => bytes "Failed to build signing signature: " ++ s
  | .MethodNotImplemented s =>
    bytes "Select signing method '" ++ s ++ bytes "' has not been implemented"

/-- The detail string a `SignBuilderError` variant carries, when it carries one. -/
def SignBuilderError.detail : SignBuilderError → Option ByteStr
  | .InvalidFormat s => some s
  | .GPGSigningKey s => some s
  | .Signature s => some s
  | .MethodNotImplemented s => some s

/-- Error type for `Sign` (signing execution), as in the source; `Stdin` is a
unit variant with no payload. -/
inductive SignError where
  | Spawn (s : ByteStr)
  | Stdin
  | WriteBuffer (s : ByteStr)
  | Output (s : ByteStr)
  | Shellout (s : ByteStr)
deriving DecidableEq

/-- The detail string a `SignError` variant carries, when it carries one. -/
def SignError.detail : SignError → Option ByteStr
  | .Spawn s => some s
  | .Stdin => none
  | .WriteBuffer s => some s
  | .Output s => some s
  | .Shellout s => some s

/-- The resolved signing strategy: external program and signing key. -/
structure GPGSign where
  program : ByteStr
  signing_key : ByteStr
deriving DecidableEq

/-- A git configuration store: `config.get_string(key)` either yields the
value or fails (a key that is absent fails too; the error carries the
`git2::Error` display text, which the source always discards). -/
abbrev Config := String → Except ByteStr ByteStr

/-- Modelled from the spec: the code of
`crate::sync::commit::signature_allow_undefined_name` is not under `src/`;
per the spec it is an opaque fallible string source that supplies the
repository's committer identity rendered as `"<name> <email>"` (an unset
email is tolerated, an unset name is not), or fails with a detail message
(the `err.to_string()` of its error). A repository is modelled by that
call's outcome. -/
structure Repository where
  committerIdentity : Except ByteStr ByteStr

/-- Rust's `Result::unwrap_or_else`/`unwrap_or` with a constant default
(the closures in the source ignore the error). -/
def unwrapOr (x : Except ByteStr ByteStr) (d : ByteStr) : ByteStr :=
  match x with
  | .ok a => a
  | .error _ => d

/-- Rust's `Result::or_else` with a closure that ignores the error (the
error type may change, as it does in the source). -/
def orElseE {ε ε' : Type} (x : Except ε ByteStr) (f : Unit → Except ε' ByteStr) :
    Except ε' ByteStr :=
  match x with
  | .ok a => .ok a
  | .error _ => f ()

/-- `SignBuilder::from_gitconfig`: resolve a signing strategy from the git
configuration, following the source line by line. -/
def SignBuilder.from_gitconfig (repo : Repository) (config : Config) :
    Except SignBuilderError GPGSign :=
  let signing_methods := unwrapOr (config "gitui.signing_methods") (bytes "shellouts")
  if signing_methods = bytes "shellouts" then
    let format := unwrapOr (config "gpg.format") (bytes "openpgp")
    if format = bytes "openpgp" then
      let program :=
        unwrapOr
          (orElseE (config "gpg.openpgp.program") (fun _ => config "gpg.program"))
          (bytes "gpg")
      match
        orElseE (config "user.signingKey")
          (fun _ =>
            match repo.committerIdentity with
            | .ok id => .ok id
            | .error e => .error (SignBuilderError.Signature e)) with
      | .ok signing_key => .ok { program := program, signing_key := signing_key }
      | .error err => .error (SignBuilderError.GPGSigningKey err.toString)
    else if format = bytes "x509" then
      .error (.MethodNotImplemented (bytes "x509"))
    else if format = bytes "ssh" then
      .error (.MethodNotImplemented (bytes "ssh"))
    else .error (.InvalidFormat format)
  else if signing_methods = bytes "rust" then
    .error (.MethodNotImplemented (bytes "<rust native>"))
  else .error (.InvalidFormat signing_methods)

/-- What the child process produced once it exited: exit-status success flag
and the collected output and error streams. -/
structure ProcessOutput where
  success : Bool
  stdout : ByteStr
  stderr : ByteStr
deriving DecidableEq

/-- Outcome of the subprocess interaction that `GPGSign::sign` performs: the
spawn may fail, the stdin handle may be unavailable, the write to stdin may
fail, waiting for the output may fail, or the process exits with collected
output. Each message is the corresponding `e.to_string()`. -/
inductive SpawnOutcome where
  | spawnFail (msg : ByteStr)
  | stdinUnavailable
  | writeFail (msg : ByteStr)
  | waitFail (msg : ByteStr)
  | exited (out : ProcessOutput)
deriving DecidableEq

/-- `GPGSign::sign`: run the signing program on the commit text and validate
the protocol, following the source line by line; the subprocess behaviour is
the `env` argument. -/
def GPGSign.sign (self : GPGSign) (commit : ByteStr) (env : SpawnOutcome) :
    Except SignError ByteStr :=
  match env with
  | .spawnFail e => .error (.Spawn e)
  | .stdinUnavailable => .error .Stdin
  | .writeFail e => .error (.WriteBuffer e)
  | .waitFail e => .error (.Output e)
  | .exited out =>
    if out.success = false then
      .error (.Shellout
        (bytes "failed to sign data, program '" ++ self.program ++
          bytes "' exited non-zero: " ++
          unwrapOr (fromUtf8 out.stderr)
            (bytes "[error could not be read from stderr]")))
    else
      match fromUtf8 out.stderr with
      | .error e => .error (.Shellout e)
      | .ok stderr =>
        if containsSub sigCreatedMarker stderr = false then
          .error (.Shellout
            (bytes "failed to sign data, program '" ++ self.program ++
              bytes "' failed, SIG_CREATED not seen in stderr"))
        else
          match fromUtf8 out.stdout with
          | .error e => .error (.Shellout e)
          | .ok signed_commit => .ok signed_commit

/-! Helper lemmas about the embedded primitives. -/

/-- UTF-8 decoding is zero-copy: a successful decode returns the input bytes. -/
lemma fromUtf8_ok {bs s : ByteStr} (h : fromUtf8 bs = .ok s) : s = bs := by
  unfold fromUtf8 at h
  rcases hr : utf8Run 0 bs with _ | ⟨v, en⟩
  · rw [hr] at h
    exact (Except.ok.inj h).symm
  · rcases en with _ | n <;> rw [hr] at h <;> exact Except.noConfusion h

/-- Valid UTF-8 bytes decode to themselves. -/
lemma validUtf8_fromUtf8 {bs : ByteStr} (h : validUtf8 bs = true) :
    fromUtf8 bs = .ok bs := by
  unfold validUtf8 at h
  unfold fromUtf8
  rcases hr : utf8Run 0 bs with _ | ⟨v, en⟩
  · rfl
  · rw [hr] at h
    simp at h

/-- Invalid UTF-8 bytes fail to decode. -/
lemma fromUtf8_invalid {bs : ByteStr} (h : validUtf8 bs = false) :
    ∃ e, fromUtf8 bs = .error e := by
  unfold validUtf8 at h
  unfold fromUtf8
  rcases hr : utf8Run 0 bs with _ | ⟨v, en⟩
  · rw [hr] at h
    simp at h
  · rcases en with _ | n <;> exact ⟨_, rfl⟩

/-- Characterisation of `listStartsWith`. -/
lemma listStartsWith_iff (p s : List Nat) :
    listStartsWith p s = true ↔ ∃ t, s = p ++ t := by
  induction p generalizing s with
  | nil => simp [listStartsWith]
  | cons x xs ih =>
    cases s with
    | nil =>
      simp [listStartsWith]
    | cons c cs =>
      simp only [listStartsWith, Bool.and_eq_true, beq_iff_eq, ih cs,
        List.cons_append, List.cons.injEq]
      constructor
      · rintro ⟨hx, t, ht⟩
        exact ⟨t, hx.symm, ht⟩
      · rintro ⟨t, hc, ht⟩
        exact ⟨hc.symm, t, ht⟩

/-- Characterisation of `containsSub`: byte-substring occurrence. -/
lemma containsSub_iff (p s : ByteStr) :
    containsSub p s = true ↔ ∃ a b, s = a ++ (p ++ b) := by
  induction s with
  | nil =>
    simp only [containsSub, listStartsWith_iff]
    constructor
    · rintro ⟨t, ht⟩
      exact ⟨[], t, ht⟩
    · rintro ⟨a, b, hab⟩
      rcases a with _ | ⟨x, a'⟩
      · exact ⟨b, hab⟩
      · exact absurd hab (by simp)
  | cons c cs ih =>
    simp only [containsSub, Bool.or_eq_true, listStartsWith_iff, ih]
    constructor
    · rintro (⟨t, ht⟩ | ⟨a, b, hab⟩)
      · exact ⟨[], t, by simpa using ht⟩
      · exact ⟨c :: a, b, by rw [List.cons_append, ← hab]⟩
    · rintro ⟨a, b, hab⟩
      rcases a with _ | ⟨x, a'⟩
      · exact Or.inl ⟨b, by simpa using hab⟩
      · rw [List.cons_append] at hab
        injection hab with h1 h2
        exact Or.inr ⟨a', b, h2⟩

/-- A lookup whose `toOption` is `none` is an error. -/
lemma toOption_none {x : Except ByteStr ByteStr} (h : x.toOption = none) :
    ∃ e, x = .error e := by
  cases x with
  | error e => exact ⟨e, rfl⟩
  | ok a => simp [Except.toOption] at h

/-- `unwrapOr` depends only on the success value of its argument. -/
lemma unwrapOr_congr {x y : Except ByteStr ByteStr} {d : ByteStr}
    (h : x.toOption = y.toOption) : unwrapOr x d = unwrapOr y d := by
  cases x <;> cases y <;> simp_all [Except.toOption, unwrapOr]

/-- `orElseE` depends only on the success value of its first argument. -/
lemma orElseE_congr {ε' : Type} {x y : Except ByteStr ByteStr}
    {f : Unit → Except ε' ByteStr} (h : x.toOption = y.toOption) :
    orElseE x f = orElseE y f := by
  cases x <;> cases y <;> simp_all [Except.toOption, orElseE]

/-- The two-lookup fallback chain with a default depends only on the success
values of the two lookups. -/
lemma unwrapOr_orElse_congr {x y u v : Except ByteStr ByteStr} {d : ByteStr}
    (hxy : x.toOption = y.toOption) (huv : u.toOption = v.toOption) :
    unwrapOr (orElseE x (fun _ => u)) d = unwrapOr (orElseE y (fun _ => v)) d := by
  rcases x with e | a <;> rcases y with e' | a'
  · simpa [orElseE] using unwrapOr_congr huv
  · simp [Except.toOption] at hxy
  · simp [Except.toOption] at hxy
  · simp only [Except.toOption, Option.some.injEq] at hxy
    simp [orElseE, unwrapOr, hxy]

/-- Under resolved method `"shellouts"` and resolved format `"openpgp"`,
`from_gitconfig` reduces to the program chain and signing-key chain. -/
lemma from_gitconfig_shellouts_openpgp (repo : Repository) (c : Config)
    (hm : unwrapOr (c "gitui.signing_methods") (bytes "shellouts") = bytes "shellouts")
    (hf : unwrapOr (c "gpg.format") (bytes "openpgp") = bytes "openpgp") :
    SignBuilder.from_gitconfig repo c =
      match
        orElseE (c "user.signingKey")
          (fun _ =>
            match repo.committerIdentity with
            | .ok id => .ok id
            | .error e => .error (SignBuilderError.Signature e)) with
      | .ok signing_key =>
        .ok
          { program :=
              unwrapOr
                (orElseE (c "gpg.openpgp.program") (fun _ => c "gpg.program"))
                (bytes "gpg"),
            signing_key := signing_key }
      | .error err => .error (SignBuilderError.GPGSigningKey err.toString) := by
  simp only [SignBuilder.from_gitconfig]
  rw [hm, hf, if_pos rfl, if_pos rfl]

/-! Theorems settling the claims. -/

/-- C1: for every sign call where the spawned external program exits with a
success status but its error stream does not contain the literal substring
`"\n[GNUPG:] SIG_CREATED "`, `sign` returns a `Shellout` error and never
returns a signed output. -/
theorem sign_success_without_marker_shellout (self : GPGSign) (commit : ByteStr)
    (out : ProcessOutput) (hs : out.success = true)
    (hm : containsSub sigCreatedMarker out.stderr = false) :
    (∃ m, self.sign commit (.exited out) = .error (.Shellout m)) ∧
      ∀ s, self.sign commit (.exited out) ≠ .ok s := by
  have key : ∃ m, self.sign commit (.exited out) = .error (.Shellout m) := by
    cases hdec : fromUtf8 out.stderr with
    | error e => exact ⟨e, by simp [GPGSign.sign, hs, hdec]⟩
    | ok s =>
      have hse : s = out.stderr := fromUtf8_ok hdec
      subst hse
      exact ⟨bytes "failed to sign data, program '" ++ self.program ++
        bytes "' failed, SIG_CREATED not seen in stderr",
        by simp [GPGSign.sign, hs, hdec, hm]⟩
  refine ⟨key, ?_⟩
  obtain ⟨m, hmm⟩ := key
  intro s hcontra
  rw [hmm] at hcontra
  exact Except.noConfusion hcontra

/-- Witness for C1 at a concrete input: the program exits 0 but its stderr
lacks the marker, and `sign` yields a `Shellout` error. -/
theorem sign_success_without_marker_shellout_witness :
    (∃ m, (GPGSign.mk (bytes "gpg") (bytes "KEY")).sign (bytes "tree 123")
        (.exited ⟨true, bytes "SIG", bytes "gpg: nothing was created"⟩) =
      .error (.Shellout m)) ∧
      ∀ s, (GPGSign.mk (bytes "gpg") (bytes "KEY")).sign (bytes "tree 123")
        (.exited ⟨true, bytes "SIG", bytes "gpg: nothing was created"⟩) ≠ .ok s :=
  sign_success_without_marker_shellout _ _ _ rfl (by decide)

/-- C2, counterexample to the claim as stated: a program that exits
successfully, whose error stream contains the marker bytes but is not valid
UTF-8 as a whole, and whose output stream is valid UTF-8, does not get its
output returned — the claim omits that the error stream must be valid UTF-8. -/
theorem sign_roundtrip_cex :
    (⟨true, bytes "SIG", sigCreatedMarker ++ [192]⟩ : ProcessOutput).success = true ∧
      containsSub sigCreatedMarker (sigCreatedMarker ++ [192]) = true ∧
      validUtf8 (bytes "SIG") = true ∧
      (GPGSign.mk (bytes "gpg") (bytes "KEY")).sign (bytes "tree 123")
          (.exited ⟨true, bytes "SIG", sigCreatedMarker ++ [192]⟩) ≠
        .ok (bytes "SIG") := by
  decide

/-- C2 as amended: for every sign call where the external program exits
successfully, its error stream is valid UTF-8 and contains the confirmation
marker, and its output stream is valid UTF-8, `sign` returns exactly that
output stream's bytes, unchanged. -/
theorem sign_roundtrip_amended (self : GPGSign) (commit : ByteStr)
    (out : ProcessOutput) (hs : out.success = true)
    (hv : validUtf8 out.stderr = true)
    (hm : containsSub sigCreatedMarker out.stderr = true)
    (ho : validUtf8 out.stdout = true) :
    self.sign commit (.exited out) = .ok out.stdout := by
  simp [GPGSign.sign, hs, validUtf8_fromUtf8 hv, validUtf8_fromUtf8 ho, hm]

/-- Witness for the amended C2 at a concrete input: a marker-bearing stderr
and a UTF-8 stdout are passed through byte for byte. -/
theorem sign_roundtrip_amended_witness :
    (GPGSign.mk (bytes "gpg") (bytes "KEY")).sign (bytes "tree 123")
        (.exited ⟨true, bytes "-----BEGIN PGP SIGNATURE-----",
          bytes "gpg: all good\n[GNUPG:] SIG_CREATED D 1 8"⟩) =
      .ok (bytes "-----BEGIN PGP SIGNATURE-----") :=
  sign_roundtrip_amended _ _ _ rfl (by decide) (by decide) (by decide)

/-- C3: for every configuration store in which none of the keys
`gitui.signing_methods`, `gpg.format`, `gpg.openpgp.program`, `gpg.program`
and `user.signingKey` are set, resolution succeeds with `program = "gpg"` and
`signing_key` the committer-identity string supplied by the fallback
collaborator. -/
theorem resolve_defaults (repo : Repository) (c : Config) (id : ByteStr)
    (h1 : (c "gitui.signing_methods").toOption = none)
    (h2 : (c "gpg.format").toOption = none)
    (h3 : (c "gpg.openpgp.program").toOption = none)
    (h4 : (c "gpg.program").toOption = none)
    (h5 : (c "user.signingKey").toOption = none)
    (hid : repo.committerIdentity = .ok id) :
    SignBuilder.from_gitconfig repo c = .ok ⟨bytes "gpg", id⟩ := by
  obtain ⟨e1, he1⟩ := toOption_none h1
  obtain ⟨e2, he2⟩ := toOption_none h2
  obtain ⟨e3, he3⟩ := toOption_none h3
  obtain ⟨e4, he4⟩ := toOption_none h4
  obtain ⟨e5, he5⟩ := toOption_none h5
  rw [from_gitconfig_shellouts_openpgp repo c (by rw [he1]; rfl) (by rw [he2]; rfl)]
  simp [he3, he4, he5, hid, orElseE, unwrapOr]

/-- Witness for C3 at a concrete input: every lookup fails and the committer
identity is `"name <email>"`; resolution yields program `"gpg"` and that
identity as the signing key. -/
theorem resolve_defaults_witness :
    SignBuilder.from_gitconfig ⟨.ok (bytes "name <email>")⟩
        (fun _ => .error (bytes "config value not found")) =
      .ok ⟨bytes "gpg", bytes "name <email>"⟩ :=
  resolve_defaults _ _ _ rfl rfl rfl rfl rfl rfl

/-- C4: with method `"shellouts"` and format `"openpgp"`, when both
`gpg.program = A` and `gpg.openpgp.program = B` are set every successful
resolution carries `program = B`, and when only `gpg.program = A` is set
every successful resolution carries `program = A`. -/
theorem resolve_program_precedence (repo : Repository) (c : Config) (A B : ByteStr)
    (hm : unwrapOr (c "gitui.signing_methods") (bytes "shellouts") = bytes "shellouts")
    (hf : unwrapOr (c "gpg.format") (bytes "openpgp") = bytes "openpgp") :
    ((c "gpg.openpgp.program" = .ok B ∧ c "gpg.program" = .ok A) →
      ∀ g, SignBuilder.from_gitconfig repo c = .ok g → g.program = B) ∧
    (((c "gpg.openpgp.program").toOption = none ∧ c "gpg.program" = .ok A) →
      ∀ g, SignBuilder.from_gitconfig repo c = .ok g → g.program = A) := by
  constructor
  · rintro ⟨hB, hA⟩ g hg
    rw [from_gitconfig_shellouts_openpgp repo c hm hf] at hg
    simp only [hB, orElseE, unwrapOr] at hg
    split at hg
    · simp only [Except.ok.injEq] at hg
      rw [← hg]
    · exact absurd hg (by simp)
  · rintro ⟨hno, hA⟩ g hg
    obtain ⟨e, he⟩ := toOption_none hno
    rw [from_gitconfig_shellouts_openpgp repo c hm hf] at hg
    simp only [he, hA, orElseE, unwrapOr] at hg
    split at hg
    · simp only [Except.ok.injEq] at hg
      rw [← hg]
    · exact absurd hg (by simp)

/-- Witness for C4 at a concrete input: with both program keys set,
resolution succeeds and the strategy's program is the more specific
`gpg.openpgp.program` value. -/
theorem resolve_program_precedence_witness :
    (GPGSign.mk (bytes "B") (bytes "KEY")).program = bytes "B" :=
  (resolve_program_precedence ⟨.ok (bytes "name <email>")⟩
      (fun k =>
        if k = "gpg.openpgp.program" then .ok (bytes "B")
        else if k = "gpg.program" then .ok (bytes "A")
        else if k = "user.signingKey" then .ok (bytes "KEY")
        else .error (bytes "config value not found"))
      (bytes "A") (bytes "B") (by decide) (by decide)).1
    ⟨by decide, by decide⟩ (GPGSign.mk (bytes "B") (bytes "KEY")) (by decide)

/-- C5: with method `"shellouts"`, a `gpg.format` of `"x509"` or `"ssh"`
fails with `MethodNotImplemented` carrying that format, and any format other
than `"openpgp"`, `"x509"` and `"ssh"` fails with `InvalidFormat` carrying
that value. -/
theorem resolve_format_errors (repo : Repository) (c : Config) (f : ByteStr)
    (hm : unwrapOr (c "gitui.signing_methods") (bytes "shellouts") = bytes "shellouts")
    (hf : c "gpg.format" = .ok f) :
    (f = bytes "x509" →
      SignBuilder.from_gitconfig repo c = .error (.MethodNotImplemented f)) ∧
    (f = bytes "ssh" →
      SignBuilder.from_gitconfig repo c = .error (.MethodNotImplemented f)) ∧
    (f ≠ bytes "openpgp" → f ≠ bytes "x509" → f ≠ bytes "ssh" →
      SignBuilder.from_gitconfig repo c = .error (.InvalidFormat f)) := by
  have hfmt : unwrapOr (c "gpg.format") (bytes "openpgp") = f := by rw [hf]; rfl
  refine ⟨?_, ?_, ?_⟩
  · intro hx
    subst hx
    simp only [SignBuilder.from_gitconfig]
    rw [hm, hfmt, if_pos rfl, if_neg (by decide), if_pos rfl]
  · intro hx
    subst hx
    simp only [SignBuilder.from_gitconfig]
    rw [hm, hfmt, if_pos rfl, if_neg (by decide), if_neg (by decide), if_pos rfl]
  · intro h1 h2 h3
    simp only [SignBuilder.from_gitconfig]
    rw [hm, hfmt, if_pos rfl, if_neg h1, if_neg h2, if_neg h3]

/-- Witness for C5 at a concrete input: format `"x509"` yields
`MethodNotImplemented "x509"`. -/
theorem resolve_format_errors_witness :
    SignBuilder.from_gitconfig ⟨.ok (bytes "name <email>")⟩
        (fun k => if k = "gpg.format" then .ok (bytes "x509")
          else .error (bytes "config value not found")) =
      .error (.MethodNotImplemented (bytes "x509")) :=
  (resolve_format_errors ⟨.ok (bytes "name <email>")⟩
      (fun k => if k = "gpg.format" then .ok (bytes "x509")
        else .error (bytes "config value not found"))
      (bytes "x509") (by decide) (by decide)).1 rfl

/-- C6: for every sign call where the spawned external program exits with a
non-success status, `sign` fails with a `Shellout` error whose detail
contains the program name and the decoded error-stream text, or the
placeholder `"[error could not be read from stderr]"` when the error stream
is not valid UTF-8. -/
theorem sign_nonzero_exit_shellout (self : GPGSign) (commit : ByteStr)
    (out : ProcessOutput) (hs : out.success = false) :
    ∃ m, self.sign commit (.exited out) = .error (.Shellout m) ∧
      containsSub self.program m = true ∧
      (validUtf8 out.stderr = true → containsSub out.stderr m = true) ∧
      (validUtf8 out.stderr = false →
        containsSub (bytes "[error could not be read from stderr]") m = true) := by
  refine ⟨bytes "failed to sign data, program '" ++ self.program ++
      bytes "' exited non-zero: " ++
      unwrapOr (fromUtf8 out.stderr) (bytes "[error could not be read from stderr]"),
    ?_, ?_, ?_, ?_⟩
  · simp [GPGSign.sign, hs]
  · rw [containsSub_iff]
    exact ⟨bytes "failed to sign data, program '",
      bytes "' exited non-zero: " ++
        unwrapOr (fromUtf8 out.stderr) (bytes "[error could not be read from stderr]"),
      by simp [List.append_assoc]⟩
  · intro hv
    have hdec : unwrapOr (fromUtf8 out.stderr)
        (bytes "[error could not be read from stderr]") = out.stderr := by
      rw [validUtf8_fromUtf8 hv]
      rfl
    rw [containsSub_iff]
    exact ⟨bytes "failed to sign data, program '" ++ self.program ++
        bytes "' exited non-zero: ", [],
      by simp [hdec, List.append_assoc]⟩
  · intro hv
    obtain ⟨e, he⟩ := fromUtf8_invalid hv
    rw [containsSub_iff]
    exact ⟨bytes "failed to sign data, program '" ++ self.program ++
        bytes "' exited non-zero: ", [],
      by simp [he, unwrapOr, List.append_assoc]⟩

/-- Witness for C6 at a concrete input: a non-zero exit with a UTF-8 stderr
produces a `Shellout` whose detail contains the program name and the stderr
text. -/
theorem sign_nonzero_exit_shellout_witness :
    ∃ m, (GPGSign.mk (bytes "gpg") (bytes "KEY")).sign (bytes "tree 123")
        (.exited ⟨false, [], bytes "gpg: key not found"⟩) = .error (.Shellout m) ∧
      containsSub (bytes "gpg") m = true ∧
      (validUtf8 (bytes "gpg: key not found") = true →
        containsSub (bytes "gpg: key not found") m = true) ∧
      (validUtf8 (bytes "gpg: key not found") = false →
        containsSub (bytes "[error could not be read from stderr]") m = true) :=
  sign_nonzero_exit_shellout _ _ _ rfl

/-- C7, counterexample to the claim as stated: with
`gitui.signing_methods = "rust"` resolution fails with
`MethodNotImplemented "<rust native>"`, not `MethodNotImplemented "<native>"`
as the claim says. -/
theorem resolve_rust_cex :
    SignBuilder.from_gitconfig ⟨.ok (bytes "name <email>")⟩
        (fun k => if k = "gitui.signing_methods" then .ok (bytes "rust")
          else .error (bytes "config value not found")) ≠
      .error (.MethodNotImplemented (bytes "<native>")) ∧
    SignBuilder.from_gitconfig ⟨.ok (bytes "name <email>")⟩
        (fun k => if k = "gitui.signing_methods" then .ok (bytes "rust")
          else .error (bytes "config value not found")) =
      .error (.MethodNotImplemented (bytes "<rust native>")) := by
  decide

/-- C7 as amended: a configured method `"rust"` fails with
`MethodNotImplemented "<rust native>"`, and any configured method other than
`"shellouts"` and `"rust"` fails with `InvalidFormat` carrying that value. -/
theorem resolve_method_errors (repo : Repository) (c : Config) (v : ByteStr)
    (h : c "gitui.signing_methods" = .ok v) :
    (v = bytes "rust" →
      SignBuilder.from_gitconfig repo c =
        .error (.MethodNotImplemented (bytes "<rust native>"))) ∧
    (v ≠ bytes "shellouts" → v ≠ bytes "rust" →
      SignBuilder.from_gitconfig repo c = .error (.InvalidFormat v)) := by
  have hmv : unwrapOr (c "gitui.signing_methods") (bytes "shellouts") = v := by
    rw [h]
    rfl
  constructor
  · intro hv
    subst hv
    simp only [SignBuilder.from_gitconfig]
    rw [hmv, if_neg (by decide), if_pos rfl]
  · intro h1 h2
    simp only [SignBuilder.from_gitconfig]
    rw [hmv, if_neg h1, if_neg h2]

/-- Witness for the amended C7 at a concrete input: method `"rust"` yields
`MethodNotImplemented "<rust native>"`. -/
theorem resolve_method_errors_witness :
    SignBuilder.from_gitconfig ⟨.ok (bytes "name <email>")⟩
        (fun k => if k = "gitui.signing_methods" then .ok (bytes "rust")
          else .error (bytes "key absent")) =
      .error (.MethodNotImplemented (bytes "<rust native>")) :=
  (resolve_method_errors ⟨.ok (bytes "name <email>")⟩
      (fun k => if k = "gitui.signing_methods" then .ok (bytes "rust")
        else .error (bytes "key absent"))
      (bytes "rust") rfl).1 rfl

/-- C8, counterexample to the claim as stated: when `user.signingKey` is
absent and the fallback-identity collaborator fails with detail `"boom"`, the
returned error is not the `Signature` variant — the `map_err` on the signing
key chain wraps it into `GPGSigningKey` carrying the rendered `Signature`
message. -/
theorem resolve_identity_failure_cex :
    SignBuilder.from_gitconfig ⟨.error (bytes "boom")⟩
        (fun _ => .error (bytes "config value not found")) ≠
      .error (.Signature (bytes "boom")) ∧
    SignBuilder.from_gitconfig ⟨.error (bytes "boom")⟩
        (fun _ => .error (bytes "config value not found")) =
      .error (.GPGSigningKey (bytes "Failed to build signing signature: boom")) := by
  decide

/-- C8 as amended: when `user.signingKey` is not readable and the
fallback-identity collaborator fails with detail `d`, resolution returns
`GPGSigningKey` carrying the rendered `Signature` error message
`"Failed to build signing signature: " ++ d`. -/
theorem resolve_identity_failure_amended (repo : Repository) (c : Config)
    (d : ByteStr)
    (hm : unwrapOr (c "gitui.signing_methods") (bytes "shellouts") = bytes "shellouts")
    (hf : unwrapOr (c "gpg.format") (bytes "openpgp") = bytes "openpgp")
    (hk : (c "user.signingKey").toOption = none)
    (hid : repo.committerIdentity = .error d) :
    SignBuilder.from_gitconfig repo c =
      .error (.GPGSigningKey (bytes "Failed to build signing signature: " ++ d)) := by
  obtain ⟨e, he⟩ := toOption_none hk
  rw [from_gitconfig_shellouts_openpgp repo c hm hf]
  simp [he, hid, orElseE, SignBuilderError.toString]

/-- Witness for the amended C8 at a concrete input. -/
theorem resolve_identity_failure_amended_witness :
    SignBuilder.from_gitconfig ⟨.error (bytes "boom")⟩
        (fun _ => .error (bytes "key absent")) =
      .error (.GPGSigningKey (bytes "Failed to build signing signature: " ++ bytes "boom")) :=
  resolve_identity_failure_amended ⟨.error (bytes "boom")⟩
    (fun _ => .error (bytes "key absent")) (bytes "boom")
    (by decide) (by decide) rfl rfl

/-- C9, counterexample to the claim as stated: the `Stdin` variant of the
signing-execution taxonomy carries no detail string. -/
theorem error_detail_cex : SignError.detail SignError.Stdin = none := rfl

/-- C9 as amended: every variant of the configuration-resolution taxonomy
carries a detail string, and every variant of the signing-execution taxonomy
other than the payload-free unit variant `Stdin` carries a detail string. -/
theorem error_detail_amended :
    (∀ e : SignBuilderError, ∃ s, e.detail = some s) ∧
      ∀ e : SignError, e ≠ SignError.Stdin → ∃ s, e.detail = some s := by
  constructor
  · intro e
    cases e <;> exact ⟨_, rfl⟩
  · intro e h
    cases e with
    | Stdin => exact absurd rfl h
    | Spawn s => exact ⟨s, rfl⟩
    | WriteBuffer s => exact ⟨s, rfl⟩
    | Output s => exact ⟨s, rfl⟩
    | Shellout s => exact ⟨s, rfl⟩

/-- Witness for the amended C9 at a concrete input: `Shellout` carries its
detail string. -/
theorem error_detail_amended_witness :
    ∃ s, (SignError.Shellout (bytes "process failed")).detail = some s :=
  error_detail_amended.2 (SignError.Shellout (bytes "process failed")) (by decide)

/-- C10: resolution depends only on which configuration lookups succeed and
with what value; two stores whose lookups succeed identically resolve
identically, whatever their lookup errors are, so every lookup failure is
treated exactly like absence and no lookup error reaches the caller. -/
theorem resolve_lookup_failure_as_absence (repo : Repository) (c₁ c₂ : Config)
    (h : ∀ k, (c₁ k).toOption = (c₂ k).toOption) :
    SignBuilder.from_gitconfig repo c₁ = SignBuilder.from_gitconfig repo c₂ := by
  simp only [SignBuilder.from_gitconfig]
  rw [unwrapOr_congr (h "gitui.signing_methods"),
    unwrapOr_congr (h "gpg.format"),
    unwrapOr_orElse_congr (h "gpg.openpgp.program") (h "gpg.program"),
    orElseE_congr (h "user.signingKey")]

/-- Witness for C10 at a concrete input: two stores failing every lookup with
different error details resolve to the same strategy. -/
theorem resolve_lookup_failure_as_absence_witness :
    SignBuilder.from_gitconfig ⟨.ok (bytes "name <email>")⟩
        (fun _ => .error (bytes "could not open global config")) =
      SignBuilder.from_gitconfig ⟨.ok (bytes "name <email>")⟩
        (fun _ => .error (bytes "config value not found")) :=
  resolve_lookup_failure_as_absence ⟨.ok (bytes "name <email>")⟩ _ _
    (fun _ => rfl)

end Sign
